import Mathlib

/-!
Shallow embedding of the clinic-management backend (routes/login.js,
routes/admin.js, routes/doctor.js, createAdmin.js, server.js) and proofs
of the specification claims about it.

Stored documents are modelled as Lean structures; Mongo collections as
lists; `findOne` as `List.find?` (first match); HTTP handlers as pure
functions from the database, the request data and the clock to a response
(and, for mutating handlers, the new database).  JS-falsy string checks
(`!email`) are modelled by `isFalsy`: a field is falsy when absent or the
empty string.  bcrypt is modelled by a concrete injective tagging function
(the claims concern control flow, not cryptographic strength), and a JWT
is modelled as its decoded payload together with the issue / expiry times
and the secret it was signed with; verification checks the secret and the
clock, exactly as `jwt.verify` accepts a token iff the signature matches
and the current time is before `exp`.
-/

namespace Backend

/-- JS truthiness test on an optional string field: `!x` is true when the
field is absent or the empty string. -/
def isFalsy : Option String → Bool
  | none => true
  | some s => s == ""

/-- Model of `bcrypt.hash(p, 10)`: an injective tagging of the plaintext.
The stored hash of `p` is distinct from `p` itself. -/
def bcryptHash (p : String) : String := "bcrypt:" ++ p

/-- Model of `bcrypt.compare(plain, stored)`: succeeds iff `stored` is the
hash of `plain`. -/
def bcryptCompare (plain stored : String) : Bool := stored == bcryptHash plain

/-- The decoded payload `{ id, role }` carried by a JWT. -/
structure TokenPayload where
  id : String
  role : String
deriving DecidableEq, Repr

/-- A signed token: payload plus `iat` / `exp` times (seconds) and the
secret it was signed with (modelling the signature). -/
structure SignedToken where
  id : String
  role : String
  iat : Nat
  exp : Nat
  sig : String
deriving DecidableEq, Repr

/-- Model of `jwt.sign(payload, secret, { expiresIn })`: stamps the issue
time `now` and the expiry `now + expiresInSecs`. -/
def jwtSign (payload : TokenPayload) (secret : String) (expiresInSecs now : Nat) :
    SignedToken :=
  { id := payload.id, role := payload.role, iat := now, exp := now + expiresInSecs,
    sig := secret }

/-- Model of `jwt.verify(token, secret)` at time `now`: yields the decoded
payload iff the signature matches and the token is not yet expired
(`now < exp`); otherwise it fails (`none`, the thrown-error case). -/
def jwtVerify (tok : SignedToken) (secret : String) (now : Nat) : Option TokenPayload :=
  if tok.sig == secret && now < tok.exp then some ⟨tok.id, tok.role⟩ else none

/-- A patient record in the general User collection (models/User.js). -/
structure UserDoc where
  id : String
  firstName : String
  lastName : String
  email : String
  password : Option String
  role : String
deriving DecidableEq, Repr

/-- A doctor record (models/Doctor.js), with the fields the routes read
and write. -/
structure DoctorDoc where
  id : String
  firstName : String
  lastName : String
  email : String
  specialty : String
  licenseNumber : String
  phoneNumber : String
  password : Option String
  role : String
deriving DecidableEq, Repr

/-- An admin record (models/Admin.js). -/
structure AdminDoc where
  id : String
  firstName : String
  lastName : String
  email : String
  password : Option String
  role : String
deriving DecidableEq, Repr

/-- An appointment record (models/Appointment.js), with the fields the
doctor routes read and write. -/
structure Appointment where
  id : String
  patientId : String
  doctorId : String
  date : String
  time : String
  reason : String
  status : String
deriving DecidableEq, Repr

/-- The document store: one list per collection. -/
structure DB where
  users : List UserDoc
  doctors : List DoctorDoc
  admins : List AdminDoc
  appointments : List Appointment
deriving DecidableEq, Repr

/-- The credential fields the login handler reads off whichever record the
three-way role dispatch found. -/
structure FoundUser where
  id : String
  password : Option String
  role : String
deriving DecidableEq, Repr

/-- The three-way collection dispatch of routes/login.js lines 30–39:
doctor → Doctor collection by email, admin → Admin collection by email,
anything else → User collection by email and role. -/
def lookupUser (db : DB) (email role : String) : Option FoundUser :=
  if role == "doctor" then
    (db.doctors.find? (fun d => d.email == email)).map
      (fun d => { id := d.id, password := d.password, role := d.role })
  else if role == "admin" then
    (db.admins.find? (fun a => a.email == email)).map
      (fun a => { id := a.id, password := a.password, role := a.role })
  else
    (db.users.find? (fun u => u.email == email && u.role == role)).map
      (fun u => { id := u.id, password := u.password, role := u.role })

/-- The response of POST /api/login. -/
structure LoginResult where
  status : Nat
  error : Option String
  token : Option SignedToken
  role : Option String
deriving DecidableEq, Repr

/-- POST /api/login (routes/login.js; routes/doctor.js carries a
byte-for-byte duplicate of the same handler).  `jwtSecret` is
`process.env.JWT_SECRET`, `now` the clock at signing time. -/
def loginHandler (db : DB) (jwtSecret : Option String) (now : Nat)
    (email password role : Option String) : LoginResult :=
  if isFalsy email || isFalsy password || isFalsy role then
    { status := 400, error := some "Email, password, and role are required",
      token := none, role := none }
  else
    match lookupUser db (email.getD "") (role.getD "") with
    | none =>
      { status := 400, error := some "Invalid email or role", token := none, role := none }
    | some u =>
      if isFalsy u.password then
        { status := 400, error := some "Invalid user data", token := none, role := none }
      else if bcryptCompare (password.getD "") (u.password.getD "") then
        if isFalsy jwtSecret then
          { status := 500, error := some "Server configuration error",
            token := none, role := none }
        else
          { status := 200, error := none,
            token := some (jwtSign { id := u.id, role := u.role } (jwtSecret.getD "") 86400 now),
            role := some u.role }
      else
        { status := 400, error := some "Invalid password", token := none, role := none }

/-- The response of POST /admin/login (no role field in the body). -/
structure AdminLoginResult where
  status : Nat
  error : Option String
  token : Option SignedToken
deriving DecidableEq, Repr

/-- POST /admin/login (routes/admin.js lines 36–61): looks the email up in
the Admin collection only, compares the password, and signs
`{ id, role: 'admin' }` with `expiresIn: '1h'`.  A missing stored
password or a missing JWT secret make bcrypt / jwt.sign throw, which the
catch block turns into a 500. -/
def adminLoginHandler (admins : List AdminDoc) (jwtSecret : Option String) (now : Nat)
    (email password : String) : AdminLoginResult :=
  match admins.find? (fun a => a.email == email) with
  | none => { status := 400, error := some "Invalid credentials", token := none }
  | some admin =>
    match admin.password with
    | none => { status := 500, error := some "Server error", token := none }
    | some stored =>
      if bcryptCompare password stored then
        if isFalsy jwtSecret then
          { status := 500, error := some "Server error", token := none }
        else
          { status := 200, error := none,
            token := some (jwtSign { id := admin.id, role := "admin" } (jwtSecret.getD "") 3600 now) }
      else
        { status := 400, error := some "Invalid credentials", token := none }

/-- Outcome of an auth middleware: a short-circuit response, or the
decoded user attached to the request. -/
inductive AuthResult where
  | denied (status : Nat) (error : String)
  | ok (user : TokenPayload)
deriving DecidableEq, Repr

/-- The auth middleware of routes/doctor.js lines 15–29: 401 when no
token, 401 when verification fails, otherwise attach the decoded
payload.  The bearer token (after the `Bearer ` prefix strip) is modelled
directly as the optional `SignedToken` in the Authorization header. -/
def doctorAuth (header : Option SignedToken) (secret : String) (now : Nat) : AuthResult :=
  match header with
  | none => .denied 401 "No token provided"
  | some tok =>
    match jwtVerify tok secret now with
    | none => .denied 401 "Invalid token"
    | some decoded => .ok decoded

/-- The auth middleware of routes/admin.js lines 16–33: like `doctorAuth`
but additionally rejects a decoded payload with a falsy `id`. -/
def adminAuth (header : Option SignedToken) (secret : String) (now : Nat) : AuthResult :=
  match header with
  | none => .denied 401 "No token provided"
  | some tok =>
    match jwtVerify tok secret now with
    | none => .denied 401 "Invalid token"
    | some decoded =>
      if decoded.id == "" then .denied 401 "Invalid token payload"
      else .ok decoded

/-- The response of GET /admin/total-doctors. -/
structure CountResult where
  status : Nat
  error : Option String
  totalDoctors : Option Nat
deriving DecidableEq, Repr

/-- GET /admin/total-doctors (routes/admin.js lines 163–171): behind
`adminAuth` only; the handler body counts the Doctor collection with no
role check. -/
def totalDoctorsHandler (db : DB) (header : Option SignedToken) (secret : String)
    (now : Nat) : CountResult :=
  match adminAuth header secret now with
  | .denied s e => { status := s, error := some e, totalDoctors := none }
  | .ok _ => { status := 200, error := none, totalDoctors := some db.doctors.length }

/-- The enumerated statuses accepted by the appointment status
transition (routes/doctor.js line 270). -/
def validStatuses : List String := ["scheduled", "completed", "cancelled"]

/-- The response of PATCH /doctor/appointment/:appointmentId/:status. -/
structure PatchResult where
  status : Nat
  error : Option String
  appointment : Option Appointment
deriving DecidableEq, Repr

/-- Model of `Appointment.findOneAndUpdate({ _id, doctorId }, { status },
{ new: true })`: update the first appointment matching both the id and
the doctor, returning the updated document, or `none` when no document
matches. -/
def findOneAndUpdateStatus (appts : List Appointment) (aid doctorId newStatus : String) :
    Option Appointment × List Appointment :=
  match appts with
  | [] => (none, [])
  | a :: rest =>
    if a.id == aid && a.doctorId == doctorId then
      (some { a with status := newStatus }, { a with status := newStatus } :: rest)
    else
      let r := findOneAndUpdateStatus rest aid doctorId newStatus
      (r.1, a :: r.2)

/-- PATCH /doctor/appointment/:appointmentId/:status (routes/doctor.js
lines 267–293), after the auth middleware has decoded the caller:
validate the status against `validStatuses` (400 on failure, before any
store access), then `findOneAndUpdate` scoped to the caller's id (404
when nothing matches).  Returns the response and the appointment
collection after the call. -/
def patchAppointmentHandler (appts : List Appointment) (callerId aid newStatus : String) :
    PatchResult × List Appointment :=
  if !(validStatuses.contains newStatus) then
    ({ status := 400, error := some "Invalid status", appointment := none }, appts)
  else
    match findOneAndUpdateStatus appts aid callerId newStatus with
    | (none, _) =>
      ({ status := 404, error := some "Appointment not found or unauthorized",
         appointment := none }, appts)
    | (some updated, newAppts) =>
      ({ status := 200, error := none, appointment := some updated }, newAppts)

/-- The canonical ordered slot list of routes/doctor.js line 122. -/
def allTimeSlots : List String :=
  ["10:00 AM", "11:00 AM", "12:00 PM", "1:00 PM", "2:00 PM", "3:00 PM", "4:00 PM", "5:00 PM"]

/-- The booked times for a doctor and date: `Appointment.find({ doctorId,
date })` mapped to `.time` (routes/doctor.js lines 119–120). -/
def bookedTimesFor (appts : List Appointment) (doctorId date : String) : List String :=
  (appts.filter (fun a => a.doctorId == doctorId && a.date == date)).map (fun a => a.time)

/-- GET /doctor/available-slots (routes/doctor.js lines 114–131), after
auth: filter the canonical slot list down to the slots not among the
booked times. -/
def availableSlotsHandler (appts : List Appointment) (doctorId date : String) :
    List String :=
  let bookedTimes := bookedTimesFor appts doctorId date
  allTimeSlots.filter (fun slot => !(bookedTimes.contains slot))

/-- The record created by the bootstrap seeder (createAdmin.js lines
12–18): the password field holds the seed string itself.

Modelled from the spec: the Admin schema file (models/Admin.js) is not in
the sources; per the spec the seeder stores the seed password
**plaintext** (unhashed) — "if absent, create with a plaintext password
(source bug)" — so `save` is modelled as persisting the fields verbatim,
with `freshId` standing for the store-generated document id. -/
def seedAdminDoc (freshId : String) : AdminDoc :=
  { id := freshId, firstName := "Admin", lastName := "Test",
    email := "admin@gmail.com", password := some "admin123", role := "admin" }

/-- createAdmin.js run at process start (server.js imports and the spec
describes it as the bootstrap seeder): no-op when an admin with the seed
email exists, otherwise save the seed record. -/
def createAdmin (admins : List AdminDoc) (freshId : String) : List AdminDoc :=
  match admins.find? (fun a => a.email == "admin@gmail.com") with
  | some _ => admins
  | none => admins ++ [seedAdminDoc freshId]

/-- A response document rendered as its JSON fields, in order. -/
abbrev Fields := List (String × String)

/-- The JSON rendering of a doctor document: every schema field, the
password key present only when the record has one. -/
def doctorFields (d : DoctorDoc) : Fields :=
  [("id", d.id), ("firstName", d.firstName), ("lastName", d.lastName),
   ("email", d.email), ("specialty", d.specialty),
   ("licenseNumber", d.licenseNumber), ("phoneNumber", d.phoneNumber)]
  ++ (match d.password with | some p => [("password", p)] | none => [])
  ++ [("role", d.role)]

/-- The JSON rendering of an admin document. -/
def adminFields (a : AdminDoc) : Fields :=
  [("id", a.id), ("firstName", a.firstName), ("lastName", a.lastName),
   ("email", a.email)]
  ++ (match a.password with | some p => [("password", p)] | none => [])
  ++ [("role", a.role)]

/-- Model of a Mongoose inclusion projection `.select('f1 f2 ...')`: keep
the listed fields and the document id, which an inclusion projection
returns by default unless explicitly excluded. -/
def selectFields (keep : List String) (doc : Fields) : Fields :=
  doc.filter (fun kv => kv.1 == "id" || keep.contains kv.1)

/-- Model of `.select('-password')` and of `delete obj.password`: drop
the field. -/
def dropField (excl : String) (doc : Fields) : Fields :=
  doc.filter (fun kv => kv.1 != excl)

/-- GET /doctor/all (routes/doctor.js lines 74–82): no auth middleware in
the chain — the handler receives the Authorization header but never reads
it — and applies the inclusion projection
`.select('firstName lastName specialty')`, which also keeps the id. -/
def getAllDoctorsHandler (db : DB) (_header : Option SignedToken) : List Fields :=
  db.doctors.map (fun d => selectFields ["firstName", "lastName", "specialty"] (doctorFields d))

/-- The response of a profile GET or PUT: a status, an optional error and
an optional document body. -/
structure ProfileResult where
  status : Nat
  error : Option String
  body : Option Fields
deriving DecidableEq, Repr

/-- GET /doctor/profile (routes/doctor.js lines 32–43): auth, findById on
the token id, `.select('-password')`. -/
def getDoctorProfileHandler (db : DB) (header : Option SignedToken) (secret : String)
    (now : Nat) : ProfileResult :=
  match doctorAuth header secret now with
  | .denied s e => { status := s, error := some e, body := none }
  | .ok user =>
    match db.doctors.find? (fun d => d.id == user.id) with
    | none => { status := 404, error := some "Doctor not found", body := none }
    | some d =>
      { status := 200, error := none, body := some (dropField "password" (doctorFields d)) }

/-- The PUT /doctor/profile request body (routes/doctor.js line 48); all
six fields are written unconditionally. -/
structure DoctorProfileUpdate where
  firstName : String
  lastName : String
  email : String
  specialty : String
  licenseNumber : String
  phoneNumber : String
deriving DecidableEq, Repr

/-- Replace the first document with the given id (the `save()` of a
document obtained by `findById`). -/
def saveDoctor (docs : List DoctorDoc) (i : String) (d2 : DoctorDoc) : List DoctorDoc :=
  match docs with
  | [] => []
  | x :: rest => if x.id == i then d2 :: rest else x :: saveDoctor rest i d2

/-- PUT /doctor/profile (routes/doctor.js lines 46–71): auth, findById,
overwrite the six profile fields, save, respond with the document minus
the password key (`delete doctorWithoutPassword.password`). -/
def putDoctorProfileHandler (db : DB) (header : Option SignedToken) (secret : String)
    (now : Nat) (body : DoctorProfileUpdate) : ProfileResult × DB :=
  match doctorAuth header secret now with
  | .denied s e => ({ status := s, error := some e, body := none }, db)
  | .ok user =>
    match db.doctors.find? (fun d => d.id == user.id) with
    | none => ({ status := 404, error := some "Doctor not found", body := none }, db)
    | some d =>
      let d2 := { d with
        firstName := body.firstName
        lastName := body.lastName
        email := body.email
        specialty := body.specialty
        licenseNumber := body.licenseNumber
        phoneNumber := body.phoneNumber }
      ({ status := 200, error := none, body := some (dropField "password" (doctorFields d2)) },
       { db with doctors := saveDoctor db.doctors user.id d2 })

/-- GET /admin/profile (routes/admin.js lines 123–134): auth, findById,
`.select('-password')`. -/
def getAdminProfileHandler (db : DB) (header : Option SignedToken) (secret : String)
    (now : Nat) : ProfileResult :=
  match adminAuth header secret now with
  | .denied s e => { status := s, error := some e, body := none }
  | .ok user =>
    match db.admins.find? (fun a => a.id == user.id) with
    | none => { status := 404, error := some "Admin not found", body := none }
    | some a =>
      { status := 200, error := none, body := some (dropField "password" (adminFields a)) }

/-- The PUT /admin/profile request body (routes/admin.js line 139). -/
structure AdminProfileUpdate where
  firstName : Option String
  lastName : Option String
  email : Option String
deriving DecidableEq, Repr

/-- JS `x || cur`: keep `cur` when the new value is falsy. -/
def jsOr (x : Option String) (cur : String) : String :=
  match x with
  | none => cur
  | some s => if s == "" then cur else s

/-- Replace the first admin document with the given id. -/
def saveAdmin (docs : List AdminDoc) (i : String) (a2 : AdminDoc) : List AdminDoc :=
  match docs with
  | [] => []
  | x :: rest => if x.id == i then a2 :: rest else x :: saveAdmin rest i a2

/-- PUT /admin/profile (routes/admin.js lines 137–160): auth, findById,
update the three fields with `||` fallback, save, respond with the
document minus the password key. -/
def putAdminProfileHandler (db : DB) (header : Option SignedToken) (secret : String)
    (now : Nat) (body : AdminProfileUpdate) : ProfileResult × DB :=
  match adminAuth header secret now with
  | .denied s e => ({ status := s, error := some e, body := none }, db)
  | .ok user =>
    match db.admins.find? (fun a => a.id == user.id) with
    | none => ({ status := 404, error := some "Admin not found", body := none }, db)
    | some a =>
      let a2 := { a with
        firstName := jsOr body.firstName a.firstName
        lastName := jsOr body.lastName a.lastName
        email := jsOr body.email a.email }
      ({ status := 200, error := none, body := some (dropField "password" (adminFields a2)) },
       { db with admins := saveAdmin db.admins user.id a2 })

/-! Concrete records and stores used to instantiate the theorems. -/

/-- A stored doctor whose password is the bcrypt hash of `correct-pw`. -/
def doctorRecordEx : DoctorDoc :=
  { id := "d1", firstName := "Dana", lastName := "Doe", email := "dr@clinic.test",
    specialty := "cardiology", licenseNumber := "L1", phoneNumber := "555-0001",
    password := some (bcryptHash "correct-pw"), role := "doctor" }

/-- A second stored doctor. -/
def secondDoctorEx : DoctorDoc :=
  { id := "d2", firstName := "Devi", lastName := "Rao", email := "dr2@clinic.test",
    specialty := "neurology", licenseNumber := "L2", phoneNumber := "555-0002",
    password := some (bcryptHash "other-pw"), role := "doctor" }

/-- A stored admin whose password is the bcrypt hash of `admin123`. -/
def adminRecordEx : AdminDoc :=
  { id := "a1", firstName := "Admin", lastName := "Test", email := "admin@gmail.com",
    password := some (bcryptHash "admin123"), role := "admin" }

/-- A store holding one doctor. -/
def dbLoginEx : DB :=
  { users := [], doctors := [doctorRecordEx], admins := [], appointments := [] }

/-- A store holding one admin. -/
def dbAdminEx : DB :=
  { users := [], doctors := [], admins := [adminRecordEx], appointments := [] }

/-- A store holding two doctors. -/
def dbDoctorsEx : DB :=
  { users := [], doctors := [doctorRecordEx, secondDoctorEx], admins := [],
    appointments := [] }

/-- A token signed for a patient, not an admin. -/
def patientTokenEx : SignedToken :=
  jwtSign { id := "p1", role := "patient" } "sec" 86400 0

/-- A token signed for doctor `d1`. -/
def doctorTokenEx : SignedToken :=
  jwtSign { id := "d1", role := "doctor" } "sec" 86400 0

/-- An appointment owned by doctor `d2`. -/
def apptEx : Appointment :=
  { id := "ap1", patientId := "p1", doctorId := "d2", date := "2025-01-01",
    time := "10:00 AM", reason := "checkup", status := "scheduled" }

/-- A store of appointments booking every canonical slot of doctor `d1`
on 2025-01-01. -/
def fullyBookedEx : List Appointment :=
  allTimeSlots.map (fun t =>
    { id := "b-" ++ t, patientId := "p1", doctorId := "d1", date := "2025-01-01",
      time := t, reason := "r", status := "scheduled" })

/-- A PUT /doctor/profile body. -/
def doctorBodyEx : DoctorProfileUpdate :=
  { firstName := "Dana", lastName := "Doe", email := "dr@clinic.test",
    specialty := "cardiology", licenseNumber := "L1", phoneNumber := "555-0001" }

/-- A PUT /admin/profile body. -/
def adminBodyEx : AdminProfileUpdate :=
  { firstName := none, lastName := none, email := none }

/-! Theorems for the claims. -/

/-- Claim C2: round-trip of the token service — a token signed over
`{id: X, role: R}` and verified with the same secret yields exactly
`{id: X, role: R}` at any time strictly before its expiry, and
verification fails (throws, modelled `none`) at any time at or after the
expiry. -/
theorem token_roundtrip (X R secret : String) (lifetime now t : Nat) :
    (t < now + lifetime →
      jwtVerify (jwtSign ⟨X, R⟩ secret lifetime now) secret t = some ⟨X, R⟩) ∧
    (now + lifetime ≤ t →
      jwtVerify (jwtSign ⟨X, R⟩ secret lifetime now) secret t = none) := by
  constructor
  · intro h
    simp [jwtVerify, jwtSign, h]
  · intro h
    simp [jwtVerify, jwtSign, Nat.not_lt.mpr h]

/-- Witness for C2 at a concrete payload, secret and clock. -/
theorem token_roundtrip_witness :
    (1000 + 5000 < 1000 + 86400 ∧
      jwtVerify (jwtSign ⟨"u1", "doctor"⟩ "s3cret" 86400 1000) "s3cret" 6000
        = some ⟨"u1", "doctor"⟩) ∧
    (1000 + 86400 ≤ 90000 ∧
      jwtVerify (jwtSign ⟨"u1", "doctor"⟩ "s3cret" 86400 1000) "s3cret" 90000 = none) :=
  ⟨⟨by omega, (token_roundtrip "u1" "doctor" "s3cret" 86400 1000 6000).1 (by omega)⟩,
   ⟨by omega, (token_roundtrip "u1" "doctor" "s3cret" 86400 1000 90000).2 (by omega)⟩⟩

/-- Claim C3: every token issued by POST /api/login expires 24 hours
(86400 s) after its issue time, every token issued by POST /admin/login
expires 1 hour (3600 s) after its issue time, and one and the same
stored admin identity obtains a 24-hour token through the general login
path and a 1-hour token through the admin login path. -/
theorem login_token_lifetimes :
    (∀ (db : DB) (s : Option String) (now : Nat) (e p r : Option String)
        (tok : SignedToken),
      (loginHandler db s now e p r).token = some tok → tok.exp = tok.iat + 86400) ∧
    (∀ (admins : List AdminDoc) (s : Option String) (now : Nat) (e p : String)
        (tok : SignedToken),
      (adminLoginHandler admins s now e p).token = some tok → tok.exp = tok.iat + 3600) ∧
    ((loginHandler dbAdminEx (some "sec") 0 (some "admin@gmail.com") (some "admin123")
        (some "admin")).token = some (jwtSign ⟨"a1", "admin"⟩ "sec" 86400 0) ∧
     (adminLoginHandler dbAdminEx.admins (some "sec") 0 "admin@gmail.com" "admin123").token
        = some (jwtSign ⟨"a1", "admin"⟩ "sec" 3600 0)) := by
  refine ⟨?_, ?_, by decide, by decide⟩
  · intro db s now e p r tok h
    unfold loginHandler at h
    repeat' split at h
    all_goals simp_all [jwtSign]
    all_goals subst h; rfl
  · intro admins s now e p tok h
    unfold adminLoginHandler at h
    repeat' split at h
    all_goals simp_all [jwtSign]
    all_goals subst h; rfl

/-- Witness for C3 at a concrete store, secret and clock. -/
theorem login_token_lifetimes_witness :
    (loginHandler dbAdminEx (some "sec") 0 (some "admin@gmail.com") (some "admin123")
        (some "admin")).token = some (jwtSign ⟨"a1", "admin"⟩ "sec" 86400 0) ∧
    (jwtSign (⟨"a1", "admin"⟩ : TokenPayload) "sec" 86400 0).exp
      = (jwtSign (⟨"a1", "admin"⟩ : TokenPayload) "sec" 86400 0).iat + 86400 :=
  ⟨by decide,
   login_token_lifetimes.1 dbAdminEx (some "sec") 0 (some "admin@gmail.com")
     (some "admin123") (some "admin") (jwtSign ⟨"a1", "admin"⟩ "sec" 86400 0) (by decide)⟩

/-- Counterexample to C1 as stated: two login requests that both fail
authentication — a hash mismatch against a stored doctor, and an unknown
email — receive different error messages, so the failure causes are
distinguishable from the response. -/
theorem login_failures_not_identical :
    (loginHandler dbLoginEx none 0 (some "dr@clinic.test") (some "wrong-pw")
        (some "doctor")).error = some "Invalid password" ∧
    (loginHandler dbLoginEx none 0 (some "ghost@clinic.test") (some "wrong-pw")
        (some "doctor")).error = some "Invalid email or role" ∧
    (some "Invalid password" : Option String) ≠ some "Invalid email or role" :=
  ⟨by decide, by decide, by decide⟩

/-- Unfolding lemma: truthiness of a present field is the emptiness test. -/
theorem isFalsy_some (s : String) : isFalsy (some s) = (s == "") := rfl

/-- Claim C1 as amended: every one of the three authentication-failure
branches of the login handler returns HTTP status 400 with a token-free
body, but each branch carries its own error message — `Invalid email or
role` when no record matches, `Invalid user data` when the matched record
has no stored password, `Invalid password` when hash verification fails —
so the status code hides the cause while the message reveals it. -/
theorem login_failure_branches (db : DB) (jwtSecret : Option String) (now : Nat)
    (e p r : String) (he : e ≠ "") (hp : p ≠ "") (hr : r ≠ "") :
    (lookupUser db e r = none →
      loginHandler db jwtSecret now (some e) (some p) (some r)
        = ⟨400, some "Invalid email or role", none, none⟩) ∧
    (∀ u, lookupUser db e r = some u → isFalsy u.password = true →
      loginHandler db jwtSecret now (some e) (some p) (some r)
        = ⟨400, some "Invalid user data", none, none⟩) ∧
    (∀ u, lookupUser db e r = some u → isFalsy u.password = false →
      bcryptCompare p (u.password.getD "") = false →
      loginHandler db jwtSecret now (some e) (some p) (some r)
        = ⟨400, some "Invalid password", none, none⟩) := by
  refine ⟨?_, ?_, ?_⟩
  · intro h
    simp [loginHandler, isFalsy_some, he, hp, hr, h]
  · intro u h hpw
    simp [loginHandler, isFalsy_some, he, hp, hr, h, hpw]
  · intro u h hpw hcmp
    simp [loginHandler, isFalsy_some, he, hp, hr, h, hpw, hcmp]

/-- Witness for C1's amended theorem at a concrete store and request. -/
theorem login_failure_branches_witness :
    ("ghost@clinic.test" : String) ≠ "" ∧
    lookupUser dbLoginEx "ghost@clinic.test" "doctor" = none ∧
    loginHandler dbLoginEx none 0 (some "ghost@clinic.test") (some "x") (some "doctor")
      = ⟨400, some "Invalid email or role", none, none⟩ :=
  ⟨by decide, by decide,
   (login_failure_branches dbLoginEx none 0 "ghost@clinic.test" "x" "doctor"
     (by decide) (by decide) (by decide)).1 (by decide)⟩

/-- Counterexample to C4 as stated: a token whose role is `patient`
verifies successfully, its role is not `admin`, and GET
/admin/total-doctors still answers 200 with the global doctor count. -/
theorem total_doctors_leaks_to_patient :
    jwtVerify patientTokenEx "sec" 5 = some ⟨"p1", "patient"⟩ ∧
    ("patient" : String) ≠ "admin" ∧
    totalDoctorsHandler dbDoctorsEx (some patientTokenEx) "sec" 5
      = ⟨200, none, some 2⟩ :=
  ⟨by decide, by decide, by decide⟩

/-- Claim C4 as amended: GET /admin/total-doctors performs no role check
at all — its auth middleware only demands a verifiable token with a
nonempty id, so every caller holding any valid token, whatever its role,
receives the global doctor count, while a missing token gets 401. -/
theorem total_doctors_any_valid_token (db : DB) (secret : String) (now : Nat) :
    (∀ (tok : SignedToken) (u : TokenPayload),
      jwtVerify tok secret now = some u → u.id ≠ "" →
      totalDoctorsHandler db (some tok) secret now
        = ⟨200, none, some db.doctors.length⟩) ∧
    (totalDoctorsHandler db none secret now = ⟨401, some "No token provided", none⟩) := by
  constructor
  · intro tok u hv hid
    simp [totalDoctorsHandler, adminAuth, hv, hid]
  · rfl

/-- Witness for C4's amended theorem at a concrete store and token. -/
theorem total_doctors_any_valid_token_witness :
    jwtVerify patientTokenEx "sec" 5 = some ⟨"p1", "patient"⟩ ∧
    ("p1" : String) ≠ "" ∧
    totalDoctorsHandler dbDoctorsEx (some patientTokenEx) "sec" 5
      = ⟨200, none, some dbDoctorsEx.doctors.length⟩ :=
  ⟨by decide, by decide,
   (total_doctors_any_valid_token dbDoctorsEx "sec" 5).1 patientTokenEx
     ⟨"p1", "patient"⟩ (by decide) (by decide)⟩

/-- When no stored appointment carries both the requested id and the
caller's doctor id, `findOneAndUpdate` finds nothing and leaves the
collection unchanged. -/
theorem findOneAndUpdateStatus_none (appts : List Appointment) (aid doctorId st : String)
    (h : ∀ a ∈ appts, a.id = aid → a.doctorId ≠ doctorId) :
    findOneAndUpdateStatus appts aid doctorId st = (none, appts) := by
  induction appts with
  | nil => rfl
  | cons a rest ih =>
    have hcond : (a.id == aid && a.doctorId == doctorId) = false := by
      by_cases h1 : a.id = aid
      · simp [h1, h a (List.mem_cons_self a rest) h1]
      · simp [h1]
    simp [findOneAndUpdateStatus, hcond,
      ih (fun x hx => h x (List.mem_cons_of_mem a hx))]

/-- Claim C5: for a PATCH of an appointment status with a valid status by
an authenticated doctor, when no stored appointment has both the
requested id and the caller's id as doctorId — the id does not exist, or
the appointment it names belongs to another doctor — the response is the
one generic 404 "Appointment not found or unauthorized" (identical in
both cases, so it does not reveal whether the appointment exists), never
403, and the store is unchanged. -/
theorem patch_unowned_is_404 (appts : List Appointment) (callerId aid st : String)
    (hst : st ∈ validStatuses)
    (h : ∀ a ∈ appts, a.id = aid → a.doctorId ≠ callerId) :
    patchAppointmentHandler appts callerId aid st
      = ({ status := 404, error := some "Appointment not found or unauthorized",
           appointment := none }, appts) ∧
    (patchAppointmentHandler appts callerId aid st).1.status ≠ 403 := by
  have hfind := findOneAndUpdateStatus_none appts aid callerId st h
  constructor
  · simp [patchAppointmentHandler, hst, hfind]
  · simp [patchAppointmentHandler, hst, hfind]

/-- Witness for C5: doctor `d1` patches an appointment that exists but
belongs to doctor `d2`. -/
theorem patch_unowned_is_404_witness :
    ("completed" ∈ validStatuses) ∧
    (∀ a ∈ [apptEx], a.id = "ap1" → a.doctorId ≠ "d1") ∧
    patchAppointmentHandler [apptEx] "d1" "ap1" "completed"
      = ({ status := 404, error := some "Appointment not found or unauthorized",
           appointment := none }, [apptEx]) :=
  ⟨by decide, by decide,
   (patch_unowned_is_404 [apptEx] "d1" "ap1" "completed" (by decide) (by decide)).1⟩

/-- Claim C6: the appointment status transition rejects every status
outside {scheduled, completed, cancelled} with a 400 before touching the
store: the appointment collection after the call is exactly the
collection before it. -/
theorem patch_invalid_status_400 (appts : List Appointment) (callerId aid st : String)
    (h : st ∉ validStatuses) :
    patchAppointmentHandler appts callerId aid st
      = ({ status := 400, error := some "Invalid status", appointment := none }, appts) := by
  simp [patchAppointmentHandler, h]

/-- Witness for C6 at the concrete invalid status `postponed`. -/
theorem patch_invalid_status_400_witness :
    ("postponed" ∉ validStatuses) ∧
    patchAppointmentHandler [apptEx] "d2" "ap1" "postponed"
      = ({ status := 400, error := some "Invalid status", appointment := none }, [apptEx]) :=
  ⟨by decide, patch_invalid_status_400 [apptEx] "d2" "ap1" "postponed" (by decide)⟩

/-- Claim C7: the available-slots result is always a sublist of the
canonical 8-slot list (a subset kept in the canonical order); when none
of the canonical slots is booked for the doctor and date it is the whole
8-slot list in canonical order, and when every canonical slot is booked
it is empty. -/
theorem available_slots_spec (appts : List Appointment) (doctorId date : String) :
    (availableSlotsHandler appts doctorId date).Sublist allTimeSlots ∧
    ((∀ s ∈ allTimeSlots, s ∉ bookedTimesFor appts doctorId date) →
      availableSlotsHandler appts doctorId date = allTimeSlots) ∧
    ((∀ s ∈ allTimeSlots, s ∈ bookedTimesFor appts doctorId date) →
      availableSlotsHandler appts doctorId date = []) := by
  refine ⟨?_, ?_, ?_⟩
  · unfold availableSlotsHandler
    exact List.filter_sublist _
  · intro hnone
    unfold availableSlotsHandler
    rw [List.filter_eq_self]
    intro s hs
    simpa using hnone s hs
  · intro hall
    unfold availableSlotsHandler
    rw [List.filter_eq_nil_iff]
    intro s hs
    simpa using hall s hs

/-- Witness for C7: an empty store yields all 8 canonical slots, and a
store booking every slot yields the empty list. -/
theorem available_slots_spec_witness :
    availableSlotsHandler [] "d1" "2025-01-01" = allTimeSlots ∧
    availableSlotsHandler fullyBookedEx "d1" "2025-01-01" = [] :=
  ⟨(available_slots_spec [] "d1" "2025-01-01").2.1 (by decide),
   (available_slots_spec fullyBookedEx "d1" "2025-01-01").2.2 (by decide)⟩

/-- Claim C8: the bootstrap seeder is a no-op when a record with the seed
email exists; when none exists it appends exactly the seed record; when
the store held at most one record with the seed email, afterwards it
holds exactly one; and the created record stores the seed password
`admin123` itself — not its bcrypt hash — i.e. plaintext. -/
theorem createAdmin_spec (admins : List AdminDoc) (freshId : String) :
    ((∃ a ∈ admins, a.email = "admin@gmail.com") → createAdmin admins freshId = admins) ∧
    ((∀ a ∈ admins, a.email ≠ "admin@gmail.com") →
      createAdmin admins freshId = admins ++ [seedAdminDoc freshId]) ∧
    (admins.countP (fun a => a.email == "admin@gmail.com") ≤ 1 →
      (createAdmin admins freshId).countP (fun a => a.email == "admin@gmail.com") = 1) ∧
    (seedAdminDoc freshId).password = some "admin123" ∧
    "admin123" ≠ bcryptHash "admin123" := by
  refine ⟨?_, ?_, ?_, rfl, by decide⟩
  · rintro ⟨a, ha, hae⟩
    unfold createAdmin
    split
    · rfl
    · rename_i heq
      rw [List.find?_eq_none] at heq
      exact absurd (by simpa using hae) (by simpa using heq a ha)
  · intro h
    have hn : admins.find? (fun a => a.email == "admin@gmail.com") = none := by
      rw [List.find?_eq_none]
      intro x hx
      simpa using h x hx
    unfold createAdmin
    rw [hn]
  · intro hc
    rcases Nat.le_one_iff_eq_zero_or_eq_one.mp hc with h0 | h1
    · have hn : admins.find? (fun a => a.email == "admin@gmail.com") = none := by
        rw [List.find?_eq_none]
        exact List.countP_eq_zero.mp h0
      unfold createAdmin
      rw [hn, List.countP_append, h0, List.countP_cons]
      simp [seedAdminDoc]
    · have hs : (admins.find? (fun a => a.email == "admin@gmail.com")).isSome := by
        rw [List.find?_isSome]
        exact List.countP_pos_iff.mp (by omega)
      unfold createAdmin
      split
      · exact h1
      · rename_i heq
        rw [heq] at hs
        simp at hs

/-- Witness for C8: seeding an empty admin collection creates exactly the
plaintext seed record. -/
theorem createAdmin_spec_witness :
    createAdmin [] "seed-id" = [] ++ [seedAdminDoc "seed-id"] ∧
    (createAdmin [] "seed-id").countP (fun a => a.email == "admin@gmail.com") = 1 ∧
    (seedAdminDoc "seed-id").password = some "admin123" ∧
    "admin123" ≠ bcryptHash "admin123" :=
  ⟨(createAdmin_spec [] "seed-id").2.1 (by simp),
   (createAdmin_spec [] "seed-id").2.2.1 (by simp),
   (createAdmin_spec [] "seed-id").2.2.2.1,
   (createAdmin_spec [] "seed-id").2.2.2.2⟩

/-- The inclusion projection of GET /doctor/all keeps exactly the id,
firstName, lastName and specialty of a doctor record. -/
theorem selectFields_doctorFields (d : DoctorDoc) :
    selectFields ["firstName", "lastName", "specialty"] (doctorFields d)
      = [("id", d.id), ("firstName", d.firstName), ("lastName", d.lastName),
         ("specialty", d.specialty)] := by
  cases hp : d.password <;> simp [selectFields, doctorFields, hp]

/-- Counterexample to C9 as stated: at a concrete store the unauthenticated
GET /doctor/all response row carries an id key besides the three listed
fields, so the rows are not restricted to firstName, lastName and
specialty. -/
theorem doctor_all_includes_id :
    getAllDoctorsHandler dbLoginEx none
      = [[("id", "d1"), ("firstName", "Dana"), ("lastName", "Doe"),
          ("specialty", "cardiology")]] ∧
    ¬ (∀ doc ∈ getAllDoctorsHandler dbLoginEx none, ∀ kv ∈ doc,
        kv.1 ∈ (["firstName", "lastName", "specialty"] : List String)) :=
  ⟨by decide, by decide⟩

/-- Claim C9 as amended: GET /doctor/all has no auth middleware — its
result is the same function of the store for every Authorization header,
token or no token — and it returns the full doctor list with each record
restricted to the document id and the fields firstName, lastName and
specialty (the inclusion projection keeps the id by default). -/
theorem doctor_all_unauthenticated_projection (db : DB) (header : Option SignedToken) :
    getAllDoctorsHandler db header
      = db.doctors.map (fun d =>
          [("id", d.id), ("firstName", d.firstName), ("lastName", d.lastName),
           ("specialty", d.specialty)]) := by
  unfold getAllDoctorsHandler
  exact List.map_congr_left (fun d _ => selectFields_doctorFields d)

/-- A field survives `dropField excl` only when its key differs from
`excl`. -/
theorem dropField_not_mem (excl : String) (doc : Fields) (kv : String × String)
    (hkv : kv ∈ dropField excl doc) : kv.1 ≠ excl := by
  have h2 := (List.mem_filter.mp hkv).2
  simpa using h2

/-- Claim C10: none of the four profile endpoints ever returns a body
containing a password key — for every store, header, clock and request
body, a successful GET /doctor/profile, PUT /doctor/profile,
GET /admin/profile or PUT /admin/profile yields a body all of whose keys
differ from `password`, whatever the stored record's password value. -/
theorem profile_no_password (db : DB) (header : Option SignedToken) (secret : String)
    (now : Nat) (dbody : DoctorProfileUpdate) (abody : AdminProfileUpdate) :
    (∀ bs, (getDoctorProfileHandler db header secret now).body = some bs →
      ∀ kv ∈ bs, kv.1 ≠ "password") ∧
    (∀ bs, (putDoctorProfileHandler db header secret now dbody).1.body = some bs →
      ∀ kv ∈ bs, kv.1 ≠ "password") ∧
    (∀ bs, (getAdminProfileHandler db header secret now).body = some bs →
      ∀ kv ∈ bs, kv.1 ≠ "password") ∧
    (∀ bs, (putAdminProfileHandler db header secret now abody).1.body = some bs →
      ∀ kv ∈ bs, kv.1 ≠ "password") := by
  refine ⟨?_, ?_, ?_, ?_⟩
  · intro bs h
    unfold getDoctorProfileHandler at h
    repeat' split at h
    all_goals simp_all
    all_goals try subst h
    all_goals first
      | exact fun kv hkv => dropField_not_mem _ _ kv hkv
      | exact fun a b hab => dropField_not_mem _ _ (a, b) hab
  · intro bs h
    unfold putDoctorProfileHandler at h
    repeat' split at h
    all_goals simp_all
    all_goals try subst h
    all_goals first
      | exact fun kv hkv => dropField_not_mem _ _ kv hkv
      | exact fun a b hab => dropField_not_mem _ _ (a, b) hab
  · intro bs h
    unfold getAdminProfileHandler at h
    repeat' split at h
    all_goals simp_all
    all_goals try subst h
    all_goals first
      | exact fun kv hkv => dropField_not_mem _ _ kv hkv
      | exact fun a b hab => dropField_not_mem _ _ (a, b) hab
  · intro bs h
    unfold putAdminProfileHandler at h
    repeat' split at h
    all_goals simp_all
    all_goals try subst h
    all_goals first
      | exact fun kv hkv => dropField_not_mem _ _ kv hkv
      | exact fun a b hab => dropField_not_mem _ _ (a, b) hab

/-- Witness for C10: a doctor with a stored password hash fetches their
profile; the body exists and carries no password key. -/
theorem profile_no_password_witness :
    (getDoctorProfileHandler dbLoginEx (some doctorTokenEx) "sec" 5).body
      = some (dropField "password" (doctorFields doctorRecordEx)) ∧
    (∀ kv ∈ dropField "password" (doctorFields doctorRecordEx), kv.1 ≠ "password") :=
  ⟨by decide,
   fun kv hkv =>
     (profile_no_password dbLoginEx (some doctorTokenEx) "sec" 5 doctorBodyEx
       adminBodyEx).1
       (dropField "password" (doctorFields doctorRecordEx)) (by decide) kv hkv⟩

end Backend
